import Mathlib

/-!
Verification of the charon daemon control core (`src/charon/charon.c`).

The development shallowly embeds the daemon's startup/shutdown orchestration:
the signal-driven control loop `run()`, the privilege drop
`drop_capabilities()`, the singleton guard `check_pidfile()` /
`unlink_pidfile()`, the logger registry `initialize_loggers()` and the
lifecycle chain of `main()`.  External effects (results of `sigwait`,
`setgid`, `kill`, `fopen`, configuration lookups, …) are parameters of the
embedding; each modelled function returns the trace of observable actions it
performs together with its result, exactly following the C control flow.
-/

namespace Charon

/-! ## Signal numbers (POSIX values used by the daemon) -/

def SIGHUP : Int := 1
def SIGINT : Int := 2
def SIGTERM : Int := 15

/-! ## Severity levels (from the usage text: -1 silent … 4 private) -/

def LEVEL_SILENT : Int := -1
def LEVEL_AUDIT : Int := 0
def LEVEL_CTRL : Int := 1
def LEVEL_PRIVATE : Int := 4

/-! ## The signal-driven control loop `run()`

`run()` blocks SIGINT, SIGHUP and SIGTERM and then repeatedly calls
`sigwait` on that set.  Each iteration's environment is a `WaitOutcome`:
either `sigwait` itself failed with a nonzero error, or it delivered a
signal `sig`; `loadOk` is the result `lib->settings->load_files` would
return if consulted in that iteration.  `runLoop` returns the trace of
actions and whether the loop returned to its caller (`false` means the
supplied outcomes were exhausted while the loop was still waiting). -/

inductive WaitOutcome where
  | waitError (err : Int)
  | caught (sig : Int) (loadOk : Bool)
deriving DecidableEq

inductive RunAction where
  | logWaitError (err : Int)
  | logReloadMsg
  | loadFilesCall
  | pluginsReload
  | logReloadFailed
  | logShutdownMsg (sig : Int)
  | alertShutdown (sig : Int)
  | logUnknown (sig : Int)
deriving DecidableEq

def runLoop : List WaitOutcome → List RunAction × Bool
  | [] => ([], false)
  | .waitError e :: _ => ([.logWaitError e], true)
  | .caught s lo :: rest =>
    if s = SIGHUP then
      ((if lo then [.logReloadMsg, .loadFilesCall, .pluginsReload]
        else [.logReloadMsg, .loadFilesCall, .logReloadFailed]) ++ (runLoop rest).1,
       (runLoop rest).2)
    else if s = SIGINT ∨ s = SIGTERM then
      ([.logShutdownMsg s, .alertShutdown s], true)
    else
      (.logUnknown s :: (runLoop rest).1, (runLoop rest).2)

/-- Number of shutdown-alert events (`bus->alert(ALERT_SHUTDOWN_SIGNAL, …)`)
published in a trace. -/
def countAlerts : List RunAction → Nat
  | [] => 0
  | .alertShutdown _ :: rest => countAlerts rest + 1
  | _ :: rest => countAlerts rest

/-- An outcome on which the loop keeps waiting: a delivered signal that is
neither SIGINT nor SIGTERM, with `sigwait` succeeding. -/
def keepsWaiting (o : WaitOutcome) : Prop :=
  ∃ s lo, o = WaitOutcome.caught s lo ∧ s ≠ SIGINT ∧ s ≠ SIGTERM

/-! ## `drop_capabilities()` -/

structure CapEnv where
  setgidOk : Bool
  setuidOk : Bool
  dropCapsOk : Bool

inductive CapAction where
  | prctlKeepcaps
  | setgidCall
  | logGroupFailed
  | setuidCall
  | logUserFailed
  | dropCapsCall
  | logCapsFailed
deriving DecidableEq

def drop_capabilities (e : CapEnv) : List CapAction × Bool :=
  if e.setgidOk = false then
    ([.prctlKeepcaps, .setgidCall, .logGroupFailed], false)
  else if e.setuidOk = false then
    ([.prctlKeepcaps, .setgidCall, .setuidCall, .logUserFailed], false)
  else if e.dropCapsOk = false then
    ([.prctlKeepcaps, .setgidCall, .setuidCall, .dropCapsCall, .logCapsFailed], false)
  else
    ([.prctlKeepcaps, .setgidCall, .setuidCall, .dropCapsCall], true)

/-! ## The singleton guard `check_pidfile()` / `unlink_pidfile()`

The PID file contents are a `String`; `atoi` models the C library's
conversion (skip whitespace, optional sign, leading digits, 0 otherwise);
the buffer in `check_pidfile` is 64 bytes, so at most the first 64
characters are parsed.  `alive p` models `kill(p, 0) == 0`. -/

def isSpaceC (c : Char) : Bool :=
  c = ' ' ∨ c = '\t' ∨ c = '\n' ∨ c = '\x0b' ∨ c = '\x0c' ∨ c = '\r'

def digitsVal : List Char → Int → Int
  | c :: rest, acc =>
    if c.isDigit then digitsVal rest (acc * 10 + ((c.toNat : Int) - ('0'.toNat : Int)))
    else acc
  | [], acc => acc

def atoi (s : List Char) : Int :=
  match s.dropWhile isSpaceC with
  | '-' :: rest => - digitsVal rest 0
  | '+' :: rest => digitsVal rest 0
  | other => digitsVal other 0

/-- The pid value `check_pidfile` extracts from the marker's contents:
`fread` returning 0 (empty file) leaves `pid = 0`, otherwise `atoi` of the
(at most 64-byte) buffer. -/
def pidOf (c : String) : Int :=
  if c.data = [] then 0 else atoi (c.data.take 64)

structure PidFs where
  /-- `some c`: the marker file exists with contents `c`; `none`: absent. -/
  marker : Option String
  /-- whether `fopen(PID_FILE, "r")` succeeds -/
  canOpenRead : Bool
  /-- whether `fopen(PID_FILE, "w")` succeeds -/
  canOpenWrite : Bool

structure PidEnv where
  fs : PidFs
  /-- `alive p` models `kill(p, 0) == 0` (note `kill` accepts negative
  arguments, probing process groups). -/
  alive : Int → Bool
  curPid : Int

/-- Contents written for the current process: `fprintf(pidfile, "%d\n", getpid())`. -/
def pidContents (pid : Int) : String := toString pid ++ "\n"

/-- The `create new pidfile` tail of `check_pidfile`: result is
`(alreadyRunning, final marker state)`. -/
def newPidfile (e : PidEnv) : Bool × Option String :=
  if e.fs.canOpenWrite = true then (false, some (pidContents e.curPid))
  else (false, none)

def check_pidfile (e : PidEnv) : Bool × Option String :=
  match e.fs.marker with
  | some c =>
    if e.fs.canOpenRead = true then
      if pidOf c ≠ 0 ∧ e.alive (pidOf c) = true then
        (true, some c)
      else
        newPidfile e
    else
      newPidfile e
  | none => newPidfile e

/-! ## The logger registry `initialize_loggers()`

Configuration sections are embedded as records; a field of `Option` type is
`some v` when the corresponding key is set and `none` when the settings
getter falls back to its hard-coded default (`get_bool(… "append" …, TRUE)`,
`get_bool(… "ike_name" …, FALSE)`, `get_int(… "default" …, 1)`, …).
`DBG_MAX` is the number of diagnostic categories (dmn, mgr, ike, chd, job,
cfg, knl, net, enc, tnc, imc, imv, tls, lib — the categories of the
daemon's `--debug-<type>` options). -/

def DBG_MAX : Nat := 14

structure SyslogConf where
  facility : String
  ike_name : Option Bool
  defLevel : Option Int
  levelFor : Fin DBG_MAX → Option Int

structure FilelogConf where
  filename : String
  append : Option Bool
  flush_line : Option Bool
  time_format : Option String
  ike_name : Option Bool
  defLevel : Option Int
  levelFor : Fin DBG_MAX → Option Int

structure Settings where
  syslogSections : List SyslogConf
  filelogSections : List FilelogConf

/-- Where a constructed listener renders events. -/
inductive Sink where
  | sysDaemon
  | sysAuth
  | fileStdout
  | fileStderr
  | filePath (name : String) (append : Bool) (flushLine : Bool)

/-- A listener registered with the event bus: its sink, the `ike_name`
flag, the `time_format` (file loggers), and the per-category severity
thresholds installed by the `set_level` loop. -/
structure Listener where
  sink : Sink
  ikeName : Bool
  timeFormat : Option String
  levels : Fin DBG_MAX → Int

/-- Threshold resolution for a syslog section: per-category value if set,
else the section's `default` key, else the getter's fallback `1`. -/
def sysLevels (conf : SyslogConf) : Fin DBG_MAX → Int :=
  fun g => (conf.levelFor g).getD (conf.defLevel.getD 1)

/-- Threshold resolution for a filelog section (same precedence). -/
def fileLevels (conf : FilelogConf) : Fin DBG_MAX → Int :=
  fun g => (conf.levelFor g).getD (conf.defLevel.getD 1)

/-- One iteration of the syslog loop: facilities other than `daemon` and
`auth` are skipped (`continue`) after being counted. -/
def mkSysListener (conf : SyslogConf) : Option Listener :=
  if conf.facility = "daemon" then
    some ⟨.sysDaemon, conf.ike_name.getD false, none, sysLevels conf⟩
  else if conf.facility = "auth" then
    some ⟨.sysAuth, conf.ike_name.getD false, none, sysLevels conf⟩
  else
    none

/-- One iteration of the filelog loop. `fsOpen name` models whether
`fopen(name, …)` succeeds.  Returns the listener constructed (if any)
together with the list of filesystem paths for which an open was
attempted. -/
def mkFileListener (fsOpen : String → Bool) (conf : FilelogConf) :
    Option Listener × List String :=
  if conf.filename = "stderr" then
    (some ⟨.fileStderr, conf.ike_name.getD false, conf.time_format, fileLevels conf⟩, [])
  else if conf.filename = "stdout" then
    (some ⟨.fileStdout, conf.ike_name.getD false, conf.time_format, fileLevels conf⟩, [])
  else if fsOpen conf.filename = true then
    (some ⟨.filePath conf.filename (conf.append.getD true) (conf.flush_line.getD false),
           conf.ike_name.getD false, conf.time_format, fileLevels conf⟩,
     [conf.filename])
  else
    (none, [conf.filename])

/-- `initialize_loggers(!use_syslog, levels)`.  `createLevel` is the
threshold the (out-of-excerpt) `file_logger_create`/`sys_logger_create`
constructors install before any `set_level` call; `us` is the
`use_stderr` parameter and `lv` the caller's level table.  Result: the
listeners registered with the bus, in registration order, and the paths
for which a filesystem open was attempted. -/
def initialize_loggers (st : Settings) (fsOpen : String → Bool) (createLevel : Int)
    (us : Bool) (lv : Fin DBG_MAX → Int) : List Listener × List String :=
  let sysLs := st.syslogSections.filterMap mkSysListener
  let fileRs := st.filelogSections.map (mkFileListener fsOpen)
  let fileLs := fileRs.filterMap (fun r => r.1)
  let opens := (fileRs.map (fun r => r.2)).flatten
  if st.syslogSections.length + st.filelogSections.length = 0 then
    ([⟨.fileStdout, false, none, fun g => if us = true then lv g else createLevel⟩,
      ⟨.sysDaemon, false, none, lv⟩,
      ⟨.sysAuth, false, none, fun _ => LEVEL_AUDIT⟩], [])
  else
    (sysLs ++ fileLs, opens)

/-! ## The lifecycle chain: `main()`

`charonMain` models the default (argument-free) invocation of `main`;
command-line handling only adjusts the level table and is not
claim-relevant.  `SS_RC_LIBSTRONGSWAN_INTEGRITY`, `SS_RC_DAEMON_INTEGRITY`
and `SS_RC_INITIALIZATION_FAILED` are declared in `library.h`, which is not
part of the excerpt. -/

/-- Modelled from the spec: `library.h` (declaring the `ss_rc_t` status
codes) is missing from the excerpt; the spec requires only that success,
already-running, core-library integrity failure, executable integrity
failure and initialization failure be pairwise distinct codes, so the
three `SS_RC_*` codes are modelled as distinct representatives. -/
def SS_RC_LIBSTRONGSWAN_INTEGRITY : Int := 64

/-- Modelled from the spec: see `SS_RC_LIBSTRONGSWAN_INTEGRITY`. -/
def SS_RC_DAEMON_INTEGRITY : Int := 65

/-- Modelled from the spec: see `SS_RC_LIBSTRONGSWAN_INTEGRITY`. -/
def SS_RC_INITIALIZATION_FAILED : Int := 66

structure MainEnv where
  /-- result of `library_init(NULL)` -/
  libraryInitOk : Bool
  /-- whether `lib->integrity` is non-NULL (integrity checking built in) -/
  hasIntegrity : Bool
  /-- result of `lib->integrity->check_file(…, "charon", argv[0])` -/
  charonFileIntegrityOk : Bool
  /-- result of `libhydra_init("charon")` -/
  hydraInitOk : Bool
  /-- result of `libcharon_init()` -/
  libcharonInitOk : Bool
  /-- result of `lookup_uid_gid()` -/
  lookupOk : Bool
  /-- result of `charon->initialize(charon)` -/
  daemonInitOk : Bool
  pidEnv : PidEnv
  caps : CapEnv
  outcomes : List WaitOutcome

inductive MainEvent where
  | libraryInit
  | charonIntegrityCheck
  | hydraInit
  | libcharonInit
  | lookupUidGid
  | initLoggers
  | daemonInitialize
  | pidfileCheck
  | capsDrop
  | installFaultHandlers
  | daemonStart
  | runAct (a : RunAction)
  | pidfileTruncate
  | pidfileClose
  | pidfileUnlink
  | libcharonDeinit
  | hydraDeinit
  | libraryDeinit
deriving DecidableEq

/-- `unlink_pidfile()`: truncate and close the handle when it is open,
then `unlink` the path. -/
def unlink_pidfile (handleOpen : Bool) : List MainEvent :=
  (if handleOpen = true then [MainEvent.pidfileTruncate, MainEvent.pidfileClose] else [])
    ++ [MainEvent.pidfileUnlink]

/-- The `deinit:` label's teardown sequence. -/
def deinitAll : List MainEvent :=
  [MainEvent.libcharonDeinit, MainEvent.hydraDeinit, MainEvent.libraryDeinit]

/-- `main()`: returns the event trace and `some status` when the process
exits, or `none` when the control loop is still blocked in `sigwait`
(the supplied outcome list was exhausted). -/
def charonMain (e : MainEnv) : List MainEvent × Option Int :=
  if e.libraryInitOk = false then
    ([.libraryInit, .libraryDeinit], some SS_RC_LIBSTRONGSWAN_INTEGRITY)
  else if e.hasIntegrity = true ∧ e.charonFileIntegrityOk = false then
    ([.libraryInit, .charonIntegrityCheck, .libraryDeinit], some SS_RC_DAEMON_INTEGRITY)
  else
    let t1 := [MainEvent.libraryInit]
      ++ (if e.hasIntegrity = true then [MainEvent.charonIntegrityCheck] else [])
      ++ [MainEvent.hydraInit]
    if e.hydraInitOk = false then
      (t1 ++ [.hydraDeinit, .libraryDeinit], some SS_RC_INITIALIZATION_FAILED)
    else
      let t2 := t1 ++ [MainEvent.libcharonInit]
      if e.libcharonInitOk = false then
        (t2 ++ deinitAll, some SS_RC_INITIALIZATION_FAILED)
      else
        let t3 := t2 ++ [MainEvent.lookupUidGid]
        if e.lookupOk = false then
          (t3 ++ deinitAll, some SS_RC_INITIALIZATION_FAILED)
        else
          let t4 := t3 ++ [MainEvent.initLoggers, MainEvent.daemonInitialize]
          if e.daemonInitOk = false then
            (t4 ++ deinitAll, some SS_RC_INITIALIZATION_FAILED)
          else
            let t5 := t4 ++ [MainEvent.pidfileCheck]
            if (check_pidfile e.pidEnv).1 = true then
              (t5 ++ deinitAll, some (-1))
            else
              let t6 := t5 ++ [MainEvent.capsDrop]
              if (drop_capabilities e.caps).2 = false then
                (t6 ++ deinitAll, some SS_RC_INITIALIZATION_FAILED)
              else
                let rr := runLoop e.outcomes
                let t7 := t6 ++ [MainEvent.installFaultHandlers, MainEvent.daemonStart]
                  ++ rr.1.map MainEvent.runAct
                if rr.2 = false then
                  (t7, none)
                else
                  (t7 ++ unlink_pidfile e.pidEnv.fs.canOpenWrite ++ deinitAll, some 0)

/-! ## Theorems -/

/-- C2: in `drop_capabilities`, the group switch is attempted before the
user switch; if the group switch fails the user switch is never attempted
and the operation reports failure; and the operation reports failure
whenever any of the three steps (group switch, user switch, additional
capability reduction) fails. -/
theorem drop_capabilities_order_and_failure (e : CapEnv) :
    ((drop_capabilities e).2 = true ↔
      (e.setgidOk = true ∧ e.setuidOk = true ∧ e.dropCapsOk = true))
    ∧ (e.setgidOk = false →
        drop_capabilities e
          = ([CapAction.prctlKeepcaps, CapAction.setgidCall, CapAction.logGroupFailed], false)
        ∧ CapAction.setuidCall ∉ (drop_capabilities e).1)
    ∧ (CapAction.setuidCall ∈ (drop_capabilities e).1 →
        (drop_capabilities e).1.take 2
          = [CapAction.prctlKeepcaps, CapAction.setgidCall]) := by
  obtain ⟨g, u, c⟩ := e
  cases g <;> cases u <;> cases c <;> decide

theorem drop_capabilities_order_and_failure_witness :
    drop_capabilities ⟨false, true, true⟩
      = ([CapAction.prctlKeepcaps, CapAction.setgidCall, CapAction.logGroupFailed], false) :=
  ((drop_capabilities_order_and_failure ⟨false, true, true⟩).2.1 rfl).1

/-- C3: if the marker file exists, is readable, and contains the pid of a
live process, `check_pidfile` reports already-running and leaves the
contents untouched; if the marker is absent, or readable with the pid of a
non-live process, the check reports not-running and the marker ends up
containing the current process id (assuming the new file can be
created). -/
theorem check_pidfile_live_and_stale (e : PidEnv) :
    (∀ c : String, e.fs.marker = some c → e.fs.canOpenRead = true →
      0 < pidOf c → e.alive (pidOf c) = true →
      check_pidfile e = (true, some c))
    ∧ (e.fs.canOpenWrite = true →
        (e.fs.marker = none →
          check_pidfile e = (false, some (pidContents e.curPid)))
        ∧ (∀ c : String, e.fs.marker = some c → e.fs.canOpenRead = true →
            0 < pidOf c → e.alive (pidOf c) = false →
            check_pidfile e = (false, some (pidContents e.curPid)))) := by
  refine ⟨?_, fun hw => ⟨?_, ?_⟩⟩
  · intro c hm hr hp ha
    have hne : pidOf c ≠ 0 := by omega
    simp [check_pidfile, hm, hr, hne, ha]
  · intro hm
    simp [check_pidfile, hm, newPidfile, hw]
  · intro c hm hr hp ha
    simp [check_pidfile, hm, hr, ha, newPidfile, hw]

theorem check_pidfile_live_and_stale_witness :
    check_pidfile ⟨⟨some "123\n", true, true⟩, fun p => p == 123, 77⟩
      = (true, some "123\n")
    ∧ check_pidfile ⟨⟨some "123\n", true, true⟩, fun _ => false, 77⟩
      = (false, some (pidContents 77)) := by
  constructor
  · exact (check_pidfile_live_and_stale _).1 "123\n" rfl rfl (by decide) (by decide)
  · exact ((check_pidfile_live_and_stale _).2 rfl).2 "123\n" rfl rfl (by decide) rfl

/-- C9 (as stated) is false: a marker whose contents do not parse to a
positive decimal pid can still cause an already-running abort.  `atoi`
yields a nonzero negative value for "-1", which the code probes with
`kill`; a probe of a negative value can succeed (it addresses a process
group), and then `check_pidfile` returns already-running with the file
untouched. -/
theorem check_pidfile_negative_pid_probed :
    pidOf "-1" < 0
    ∧ check_pidfile ⟨⟨some "-1", true, true⟩, fun p => p == -1, 4242⟩
        = (true, some "-1") := by
  constructor
  · decide
  · decide

/-- C9 (amended): a marker that cannot be opened for reading, or whose
contents `atoi`-parse to zero (empty file, or garbage with no leading
integer), is treated as stale: `check_pidfile` reports not-running,
removes the old file and recreates it containing the current process id
(when the new file can be created).  (Contents parsing to a nonzero —
possibly negative — value are instead probed for liveness.) -/
theorem check_pidfile_unreadable_or_zero_stale (e : PidEnv) (c : String)
    (hm : e.fs.marker = some c)
    (h : e.fs.canOpenRead = false ∨ pidOf c = 0)
    (hw : e.fs.canOpenWrite = true) :
    check_pidfile e = (false, some (pidContents e.curPid)) := by
  rcases h with h | h
  · simp [check_pidfile, hm, h, newPidfile, hw]
  · simp [check_pidfile, hm, h, newPidfile, hw]

theorem check_pidfile_unreadable_or_zero_stale_witness :
    check_pidfile ⟨⟨some "garbage", true, true⟩, fun _ => true, 31⟩
      = (false, some (pidContents 31)) :=
  check_pidfile_unreadable_or_zero_stale _ "garbage" rfl (Or.inr (by decide)) rfl

theorem countAlerts_append (xs ys : List RunAction) :
    countAlerts (xs ++ ys) = countAlerts xs + countAlerts ys := by
  induction xs with
  | nil => simp [countAlerts]
  | cons a rest ih =>
    cases a <;> simp [countAlerts, ih]
    omega

theorem countAlerts_reload_step (lo : Bool) :
    countAlerts (if lo then [RunAction.logReloadMsg, RunAction.loadFilesCall,
        RunAction.pluginsReload]
      else [RunAction.logReloadMsg, RunAction.loadFilesCall, RunAction.logReloadFailed])
      = 0 := by
  cases lo <;> decide

/-- C1: whenever the control loop's `sigwait` delivers SIGINT or SIGTERM
(after any number of iterations on which the loop keeps waiting), exactly
one shutdown-alert event carrying the triggering signal is published and
the loop returns to its caller; a delivered signal other than SIGHUP,
SIGINT and SIGTERM is logged as unknown and the loop continues waiting. -/
theorem run_shutdown_alert_once (pre rest : List WaitOutcome) (s : Int) (lo : Bool)
    (hpre : ∀ o ∈ pre, keepsWaiting o)
    (hs : s = SIGINT ∨ s = SIGTERM) :
    ((runLoop (pre ++ WaitOutcome.caught s lo :: rest)).2 = true
      ∧ countAlerts (runLoop (pre ++ WaitOutcome.caught s lo :: rest)).1 = 1
      ∧ RunAction.alertShutdown s ∈ (runLoop (pre ++ WaitOutcome.caught s lo :: rest)).1)
    ∧ (∀ (t : Int) (lo2 : Bool) (l : List WaitOutcome),
        t ≠ SIGHUP → t ≠ SIGINT → t ≠ SIGTERM →
        runLoop (WaitOutcome.caught t lo2 :: l)
          = (RunAction.logUnknown t :: (runLoop l).1, (runLoop l).2)) := by
  constructor
  · induction pre with
    | nil =>
      have hne : s ≠ SIGHUP := by
        rcases hs with h | h <;> simp [h, SIGHUP, SIGINT, SIGTERM]
      simp [runLoop, hne, hs, countAlerts]
    | cons o pre ih =>
      obtain ⟨t, lo2, rfl, h2, h15⟩ := hpre o (by simp)
      have hrec := ih (fun o ho => hpre o (by simp [ho]))
      by_cases h1 : t = SIGHUP
      · have hcons :
            runLoop (WaitOutcome.caught t lo2 :: (pre ++ WaitOutcome.caught s lo :: rest))
              = ((if lo2 then [RunAction.logReloadMsg, RunAction.loadFilesCall,
                    RunAction.pluginsReload]
                  else [RunAction.logReloadMsg, RunAction.loadFilesCall,
                    RunAction.logReloadFailed])
                  ++ (runLoop (pre ++ WaitOutcome.caught s lo :: rest)).1,
                 (runLoop (pre ++ WaitOutcome.caught s lo :: rest)).2) := by
          simp [runLoop, h1]
        refine ⟨?_, ?_, ?_⟩
        · rw [List.cons_append, hcons]
          exact hrec.1
        · rw [List.cons_append, hcons]
          simp [countAlerts_append, countAlerts_reload_step, hrec.2.1]
        · rw [List.cons_append, hcons]
          exact List.mem_append_right _ hrec.2.2
      · have hcons :
            runLoop (WaitOutcome.caught t lo2 :: (pre ++ WaitOutcome.caught s lo :: rest))
              = (RunAction.logUnknown t :: (runLoop (pre ++ WaitOutcome.caught s lo :: rest)).1,
                 (runLoop (pre ++ WaitOutcome.caught s lo :: rest)).2) := by
          simp [runLoop, h1, h2, h15]
        refine ⟨?_, ?_, ?_⟩
        · rw [List.cons_append, hcons]
          exact hrec.1
        · rw [List.cons_append, hcons]
          simp [countAlerts, hrec.2.1]
        · rw [List.cons_append, hcons]
          exact List.mem_cons_of_mem _ hrec.2.2
  · intro t lo2 l h1 h2 h15
    simp [runLoop, h1, h2, h15]

theorem run_shutdown_alert_once_witness :
    (runLoop [WaitOutcome.caught 9 false, WaitOutcome.caught SIGTERM false]).2 = true
    ∧ countAlerts (runLoop [WaitOutcome.caught 9 false,
        WaitOutcome.caught SIGTERM false]).1 = 1 := by
  have h := run_shutdown_alert_once [WaitOutcome.caught 9 false] [] SIGTERM false
    (by
      intro o ho
      simp only [List.mem_singleton] at ho
      exact ⟨9, false, ho, by decide, by decide⟩)
    (Or.inr rfl)
  exact ⟨h.1.1, h.1.2.1⟩

/-- C5: on SIGHUP the loop re-reads the configuration files; on success it
requests the plugin reload, on failure it logs the failure and does not
request the reload; in both cases the loop continues, so any run made only
of reload signals never returns. -/
theorem run_reload_repeatable (lo : Bool) (rest : List WaitOutcome) :
    (runLoop (WaitOutcome.caught SIGHUP lo :: rest)
      = ((if lo then [RunAction.logReloadMsg, RunAction.loadFilesCall,
            RunAction.pluginsReload]
          else [RunAction.logReloadMsg, RunAction.loadFilesCall,
            RunAction.logReloadFailed])
          ++ (runLoop rest).1,
         (runLoop rest).2))
    ∧ (lo = false →
        RunAction.pluginsReload ∉ (runLoop [WaitOutcome.caught SIGHUP lo]).1)
    ∧ (∀ l : List WaitOutcome,
        (∀ o ∈ l, ∃ b, o = WaitOutcome.caught SIGHUP b) →
        (runLoop l).2 = false) := by
  refine ⟨by simp [runLoop], ?_, ?_⟩
  · intro h
    subst h
    decide
  · intro l hl
    induction l with
    | nil => simp [runLoop]
    | cons o t ih =>
      obtain ⟨b, rfl⟩ := hl o (by simp)
      have := ih (fun o ho => hl o (by simp [ho]))
      simpa [runLoop] using this

theorem run_reload_repeatable_witness :
    (runLoop [WaitOutcome.caught SIGHUP true]).2 = false :=
  (run_reload_repeatable true []).2.2 [WaitOutcome.caught SIGHUP true]
    (by
      intro o ho
      simp only [List.mem_singleton] at ho
      exact ⟨true, ho⟩)

/-- C10: if the blocking `sigwait` itself fails, the loop logs the error
and returns without publishing any shutdown alert, and `main` still runs
the clean-shutdown path: the marker file is truncated, closed and removed,
the full reverse-order teardown runs, and the exit status is 0. -/
theorem main_sigwait_error_clean_shutdown (e : MainEnv) (err : Int)
    (rest : List WaitOutcome)
    (h1 : e.libraryInitOk = true) (h2 : e.hasIntegrity = true)
    (h3 : e.charonFileIntegrityOk = true) (h4 : e.hydraInitOk = true)
    (h5 : e.libcharonInitOk = true) (h6 : e.lookupOk = true)
    (h7 : e.daemonInitOk = true)
    (h8 : (check_pidfile e.pidEnv).1 = false)
    (h9 : e.pidEnv.fs.canOpenWrite = true)
    (h10 : (drop_capabilities e.caps).2 = true)
    (h11 : e.outcomes = WaitOutcome.waitError err :: rest) :
    charonMain e
      = ([MainEvent.libraryInit, MainEvent.charonIntegrityCheck, MainEvent.hydraInit,
          MainEvent.libcharonInit, MainEvent.lookupUidGid, MainEvent.initLoggers,
          MainEvent.daemonInitialize, MainEvent.pidfileCheck, MainEvent.capsDrop,
          MainEvent.installFaultHandlers, MainEvent.daemonStart,
          MainEvent.runAct (RunAction.logWaitError err),
          MainEvent.pidfileTruncate, MainEvent.pidfileClose, MainEvent.pidfileUnlink,
          MainEvent.libcharonDeinit, MainEvent.hydraDeinit, MainEvent.libraryDeinit],
         some 0)
    ∧ ∀ s : Int, MainEvent.runAct (RunAction.alertShutdown s) ∉ (charonMain e).1 := by
  have hmain : charonMain e
      = ([MainEvent.libraryInit, MainEvent.charonIntegrityCheck, MainEvent.hydraInit,
          MainEvent.libcharonInit, MainEvent.lookupUidGid, MainEvent.initLoggers,
          MainEvent.daemonInitialize, MainEvent.pidfileCheck, MainEvent.capsDrop,
          MainEvent.installFaultHandlers, MainEvent.daemonStart,
          MainEvent.runAct (RunAction.logWaitError err),
          MainEvent.pidfileTruncate, MainEvent.pidfileClose, MainEvent.pidfileUnlink,
          MainEvent.libcharonDeinit, MainEvent.hydraDeinit, MainEvent.libraryDeinit],
         some 0) := by
    simp [charonMain, h1, h2, h3, h4, h5, h6, h7, h8, h9, h10, h11, runLoop,
      unlink_pidfile, deinitAll]
  refine ⟨hmain, ?_⟩
  intro s
  rw [hmain]
  simp

theorem main_sigwait_error_clean_shutdown_witness :
    charonMain
      ⟨true, true, true, true, true, true, true,
       ⟨⟨none, true, true⟩, fun _ => false, 7⟩, ⟨true, true, true⟩,
       [WaitOutcome.waitError 4]⟩
      = ([MainEvent.libraryInit, MainEvent.charonIntegrityCheck, MainEvent.hydraInit,
          MainEvent.libcharonInit, MainEvent.lookupUidGid, MainEvent.initLoggers,
          MainEvent.daemonInitialize, MainEvent.pidfileCheck, MainEvent.capsDrop,
          MainEvent.installFaultHandlers, MainEvent.daemonStart,
          MainEvent.runAct (RunAction.logWaitError 4),
          MainEvent.pidfileTruncate, MainEvent.pidfileClose, MainEvent.pidfileUnlink,
          MainEvent.libcharonDeinit, MainEvent.hydraDeinit, MainEvent.libraryDeinit],
         some 0) :=
  (main_sigwait_error_clean_shutdown
    ⟨true, true, true, true, true, true, true,
     ⟨⟨none, true, true⟩, fun _ => false, 7⟩, ⟨true, true, true⟩,
     [WaitOutcome.waitError 4]⟩ 4 []
    rfl rfl rfl rfl rfl rfl rfl (by decide) rfl (by decide) rfl).1

/-- C4 (as stated) is false: when `library_init` fails, `main` still calls
`library_deinit` — the teardown routine of a stage that did not initialize
successfully — before exiting. -/
theorem main_failed_stage_deinit_runs :
    (MainEnv.mk false false false false false false false
        ⟨⟨none, false, false⟩, fun _ => false, 0⟩ ⟨false, false, false⟩ []).libraryInitOk
      = false
    ∧ MainEvent.libraryDeinit
        ∈ (charonMain (MainEnv.mk false false false false false false false
            ⟨⟨none, false, false⟩, fun _ => false, 0⟩ ⟨false, false, false⟩ [])).1 := by
  constructor
  · rfl
  · decide

/-- C4 (amended): each startup stage failure runs the teardown routine of
the failed stage itself (releasing its partial state) followed by those of
the successfully initialized stages, in reverse order of initialization —
except for the executable integrity check, after which only the core
library is torn down — and the exit codes of the five causes (success,
already-running, core-library integrity failure, executable integrity
failure, initialization failure) are pairwise distinct. -/
theorem main_stage_failure_teardown (e : MainEnv) :
    (e.libraryInitOk = false →
      charonMain e = ([MainEvent.libraryInit, MainEvent.libraryDeinit],
        some SS_RC_LIBSTRONGSWAN_INTEGRITY))
    ∧ (e.libraryInitOk = true → e.hasIntegrity = true → e.charonFileIntegrityOk = false →
      charonMain e = ([MainEvent.libraryInit, MainEvent.charonIntegrityCheck,
        MainEvent.libraryDeinit], some SS_RC_DAEMON_INTEGRITY))
    ∧ (e.libraryInitOk = true → (e.hasIntegrity = true → e.charonFileIntegrityOk = true) →
       e.hydraInitOk = false →
      charonMain e = ([MainEvent.libraryInit]
        ++ (if e.hasIntegrity = true then [MainEvent.charonIntegrityCheck] else [])
        ++ [MainEvent.hydraInit, MainEvent.hydraDeinit, MainEvent.libraryDeinit],
        some SS_RC_INITIALIZATION_FAILED))
    ∧ (e.libraryInitOk = true → (e.hasIntegrity = true → e.charonFileIntegrityOk = true) →
       e.hydraInitOk = true → e.libcharonInitOk = false →
      charonMain e = ([MainEvent.libraryInit]
        ++ (if e.hasIntegrity = true then [MainEvent.charonIntegrityCheck] else [])
        ++ [MainEvent.hydraInit, MainEvent.libcharonInit, MainEvent.libcharonDeinit,
            MainEvent.hydraDeinit, MainEvent.libraryDeinit],
        some SS_RC_INITIALIZATION_FAILED))
    ∧ ([(0 : Int), -1, SS_RC_LIBSTRONGSWAN_INTEGRITY, SS_RC_DAEMON_INTEGRITY,
        SS_RC_INITIALIZATION_FAILED].Nodup) := by
  refine ⟨?_, ?_, ?_, ?_, by decide⟩
  · intro hl
    simp [charonMain, hl]
  · intro hl hi hc
    simp [charonMain, hl, hi, hc]
  · intro hl hic hh
    by_cases hi : e.hasIntegrity = true
    · simp [charonMain, hl, hi, hic hi, hh, deinitAll]
    · simp [charonMain, hl, hi, hh, deinitAll]
  · intro hl hic hh hc
    by_cases hi : e.hasIntegrity = true
    · simp [charonMain, hl, hi, hic hi, hh, hc, deinitAll]
    · simp [charonMain, hl, hi, hh, hc, deinitAll]

theorem main_stage_failure_teardown_witness :
    charonMain
      (MainEnv.mk true false false false false false false
        ⟨⟨none, false, false⟩, fun _ => false, 0⟩ ⟨false, false, false⟩ [])
      = ([MainEvent.libraryInit, MainEvent.hydraInit, MainEvent.hydraDeinit,
          MainEvent.libraryDeinit], some SS_RC_INITIALIZATION_FAILED) := by
  have h := (main_stage_failure_teardown
    (MainEnv.mk true false false false false false false
      ⟨⟨none, false, false⟩, fun _ => false, 0⟩ ⟨false, false, false⟩ [])).2.2.1
    rfl (fun hi => by exact absurd hi (by decide)) rfl
  simpa using h

/-- C6: with no syslog and no filelog configuration section,
`initialize_loggers` registers exactly three listeners with the event bus:
a file listener on standard output, a syslog listener on the daemon
facility, and a syslog listener on the authentication facility whose
threshold for every category is LEVEL_AUDIT; no filesystem open is
attempted. -/
theorem initialize_loggers_default_topology (fsOpen : String → Bool) (cl : Int)
    (us : Bool) (lv : Fin DBG_MAX → Int) :
    ((initialize_loggers ⟨[], []⟩ fsOpen cl us lv).1.map fun li => li.sink)
        = [Sink.fileStdout, Sink.sysDaemon, Sink.sysAuth]
    ∧ (initialize_loggers ⟨[], []⟩ fsOpen cl us lv).1.length = 3
    ∧ (∀ li ∈ (initialize_loggers ⟨[], []⟩ fsOpen cl us lv).1,
        li.sink = Sink.sysAuth → ∀ g, li.levels g = LEVEL_AUDIT)
    ∧ (initialize_loggers ⟨[], []⟩ fsOpen cl us lv).2 = [] := by
  refine ⟨rfl, rfl, ?_, rfl⟩
  intro li hli hs g
  have hcase : li = ⟨Sink.fileStdout, false, none, fun j => if us = true then lv j else cl⟩
      ∨ li = ⟨Sink.sysDaemon, false, none, lv⟩
      ∨ li = ⟨Sink.sysAuth, false, none, fun _ => LEVEL_AUDIT⟩ := by
    simpa [initialize_loggers] using hli
  rcases hcase with rfl | rfl | rfl <;> simp_all

theorem initialize_loggers_default_topology_witness :
    (⟨Sink.sysAuth, false, none, fun _ => LEVEL_AUDIT⟩ : Listener)
        ∈ (initialize_loggers ⟨[], []⟩ (fun _ => false) 0 false (fun _ => 0)).1
    ∧ Listener.levels ⟨Sink.sysAuth, false, none, fun _ => LEVEL_AUDIT⟩ ⟨0, by decide⟩
        = LEVEL_AUDIT := by
  constructor
  · simp [initialize_loggers]
  · exact (initialize_loggers_default_topology (fun _ => false) 0 false (fun _ => 0)).2.2.1
      ⟨Sink.sysAuth, false, none, fun _ => LEVEL_AUDIT⟩ (by simp [initialize_loggers]) rfl
      ⟨0, by decide⟩

theorem initialize_loggers_configured (st : Settings) (fsOpen : String → Bool)
    (cl : Int) (us : Bool) (lv : Fin DBG_MAX → Int)
    (hne : ¬ (st.syslogSections.length + st.filelogSections.length = 0)) :
    initialize_loggers st fsOpen cl us lv
      = (st.syslogSections.filterMap mkSysListener
          ++ (st.filelogSections.map (mkFileListener fsOpen)).filterMap (fun r => r.1),
         ((st.filelogSections.map (mkFileListener fsOpen)).map (fun r => r.2)).flatten) := by
  simp [initialize_loggers, hne]

theorem mkSysListener_levels (conf : SyslogConf)
    (h : conf.facility = "daemon" ∨ conf.facility = "auth") :
    ∃ li, mkSysListener conf = some li ∧ li.levels = sysLevels conf := by
  rcases h with h | h
  · exact ⟨⟨Sink.sysDaemon, conf.ike_name.getD false, none, sysLevels conf⟩,
      by simp [mkSysListener, h], rfl⟩
  · exact ⟨⟨Sink.sysAuth, conf.ike_name.getD false, none, sysLevels conf⟩,
      by simp [mkSysListener, h], rfl⟩

theorem mkFileListener_levels (fsOpen : String → Bool) (conf : FilelogConf)
    (h : conf.filename = "stderr" ∨ conf.filename = "stdout"
      ∨ fsOpen conf.filename = true) :
    ∃ li, (mkFileListener fsOpen conf).1 = some li ∧ li.levels = fileLevels conf := by
  rcases h with h | h | h
  · exact ⟨⟨Sink.fileStderr, conf.ike_name.getD false, conf.time_format, fileLevels conf⟩,
      by simp [mkFileListener, h], rfl⟩
  · exact ⟨⟨Sink.fileStdout, conf.ike_name.getD false, conf.time_format, fileLevels conf⟩,
      by simp [mkFileListener, h], rfl⟩
  · by_cases he : conf.filename = "stderr"
    · exact ⟨⟨Sink.fileStderr, conf.ike_name.getD false, conf.time_format, fileLevels conf⟩,
        by simp [mkFileListener, he], rfl⟩
    · by_cases ho : conf.filename = "stdout"
      · exact ⟨⟨Sink.fileStdout, conf.ike_name.getD false, conf.time_format,
            fileLevels conf⟩,
          by simp [mkFileListener, he, ho], rfl⟩
      · exact ⟨⟨Sink.filePath conf.filename (conf.append.getD true)
            (conf.flush_line.getD false),
            conf.ike_name.getD false, conf.time_format, fileLevels conf⟩,
          by simp [mkFileListener, he, ho, h], rfl⟩

/-- C7: for every configured syslog facility (daemon or auth) and every
configured file logger (sentinel target or openable path), and every
category, the constructed listener registered by `initialize_loggers`
carries the three-level threshold precedence: the explicit per-category
configured value if present, else the section's configured default, else
the global fallback LEVEL_CTRL. -/
theorem loggers_threshold_precedence (st : Settings) (fsOpen : String → Bool)
    (cl : Int) (us : Bool) (lv : Fin DBG_MAX → Int) (g : Fin DBG_MAX) :
    (∀ conf ∈ st.syslogSections,
      conf.facility = "daemon" ∨ conf.facility = "auth" →
      ∃ li ∈ (initialize_loggers st fsOpen cl us lv).1,
        (∀ v, conf.levelFor g = some v → li.levels g = v)
        ∧ (conf.levelFor g = none → ∀ d, conf.defLevel = some d → li.levels g = d)
        ∧ (conf.levelFor g = none → conf.defLevel = none → li.levels g = LEVEL_CTRL))
    ∧ (∀ conf ∈ st.filelogSections,
        conf.filename = "stderr" ∨ conf.filename = "stdout"
          ∨ fsOpen conf.filename = true →
      ∃ li ∈ (initialize_loggers st fsOpen cl us lv).1,
        (∀ v, conf.levelFor g = some v → li.levels g = v)
        ∧ (conf.levelFor g = none → ∀ d, conf.defLevel = some d → li.levels g = d)
        ∧ (conf.levelFor g = none → conf.defLevel = none → li.levels g = LEVEL_CTRL)) := by
  constructor
  · intro conf hconf hfac
    have hne : ¬ (st.syslogSections.length + st.filelogSections.length = 0) := by
      have hpos : 0 < st.syslogSections.length :=
        List.length_pos.mpr (List.ne_nil_of_mem hconf)
      omega
    obtain ⟨li, hli, hlv⟩ := mkSysListener_levels conf hfac
    refine ⟨li, ?_, ?_, ?_, ?_⟩
    · rw [initialize_loggers_configured st fsOpen cl us lv hne]
      exact List.mem_append_left _ (List.mem_filterMap.mpr ⟨conf, hconf, hli⟩)
    · intro v hv
      rw [hlv]
      simp [sysLevels, hv]
    · intro hv d hd
      rw [hlv]
      simp [sysLevels, hv, hd]
    · intro hv hd
      rw [hlv]
      simp [sysLevels, hv, hd, LEVEL_CTRL]
  · intro conf hconf htgt
    have hne : ¬ (st.syslogSections.length + st.filelogSections.length = 0) := by
      have hpos : 0 < st.filelogSections.length :=
        List.length_pos.mpr (List.ne_nil_of_mem hconf)
      omega
    obtain ⟨li, hli, hlv⟩ := mkFileListener_levels fsOpen conf htgt
    refine ⟨li, ?_, ?_, ?_, ?_⟩
    · rw [initialize_loggers_configured st fsOpen cl us lv hne]
      exact List.mem_append_right _ (List.mem_filterMap.mpr
        ⟨mkFileListener fsOpen conf, List.mem_map_of_mem _ hconf, hli⟩)
    · intro v hv
      rw [hlv]
      simp [fileLevels, hv]
    · intro hv d hd
      rw [hlv]
      simp [fileLevels, hv, hd]
    · intro hv hd
      rw [hlv]
      simp [fileLevels, hv, hd, LEVEL_CTRL]

theorem loggers_threshold_precedence_witness :
    (initialize_loggers ⟨[⟨"daemon", none, none, fun _ => none⟩], []⟩
        (fun _ => false) 0 false (fun _ => 0)).1
      = [⟨Sink.sysDaemon, false, none, sysLevels ⟨"daemon", none, none, fun _ => none⟩⟩]
    ∧ Listener.levels
        ⟨Sink.sysDaemon, false, none, sysLevels ⟨"daemon", none, none, fun _ => none⟩⟩
        ⟨0, by decide⟩ = LEVEL_CTRL := by
  constructor
  · rfl
  · obtain ⟨li, hmem, hc⟩ :=
      (loggers_threshold_precedence ⟨[⟨"daemon", none, none, fun _ => none⟩], []⟩
        (fun _ => false) 0 false (fun _ => 0) ⟨0, by decide⟩).1
        ⟨"daemon", none, none, fun _ => none⟩ (by simp) (Or.inl rfl)
    have heq : (initialize_loggers ⟨[⟨"daemon", none, none, fun _ => none⟩], []⟩
        (fun _ => false) 0 false (fun _ => 0)).1
        = [⟨Sink.sysDaemon, false, none,
            sysLevels ⟨"daemon", none, none, fun _ => none⟩⟩] := rfl
    rw [heq] at hmem
    have hli : li = ⟨Sink.sysDaemon, false, none,
        sysLevels ⟨"daemon", none, none, fun _ => none⟩⟩ := by
      simpa using hmem
    have h2 := hc.2.2 rfl rfl
    rw [hli] at h2
    exact h2

/-- C8: a file-logger section whose target is the standard-error or
standard-output sentinel binds the listener to that stream without
attempting to open any filesystem path, and neither the append nor the
line-buffering flag influences the result (the constructed listener and
the attempted-open list are literally independent of `ap`, `fl` and the
filesystem). -/
theorem filelog_sentinel_binds_stream (fsOpen : String → Bool) (cl : Int) (us : Bool)
    (lv : Fin DBG_MAX → Int) (ap fl ik : Option Bool) (tf : Option String)
    (dl : Option Int) (ov : Fin DBG_MAX → Option Int) :
    initialize_loggers ⟨[], [⟨"stderr", ap, fl, tf, ik, dl, ov⟩]⟩ fsOpen cl us lv
      = ([⟨Sink.fileStderr, ik.getD false, tf, fun g => (ov g).getD (dl.getD 1)⟩], [])
    ∧ initialize_loggers ⟨[], [⟨"stdout", ap, fl, tf, ik, dl, ov⟩]⟩ fsOpen cl us lv
      = ([⟨Sink.fileStdout, ik.getD false, tf, fun g => (ov g).getD (dl.getD 1)⟩], []) :=
  ⟨rfl, rfl⟩

end Charon
